import Mathlib

/-!
Shallow embedding of the restaurant-ordering program in `src/main.go`.

The document store is modelled as two lists kept in insertion order: the
`menu` collection and the `customers` collection.  The database driver
primitives used by the source are modelled as follows:

* `FindOne` with an equality filter on `name` returns the first record of
  the collection whose name matches (`List.find?`).
* `UpdateOne` with a `$push` on `orderedItems` or a `$set` on
  `totalAmount` modifies the first record matching the filter, and reports
  whether any record matched (`MatchedCount > 0`).
* `InsertOne` appends a record at the end of the collection.

Prices are `float64` in the source; they are modelled as exact rational
amounts, which also makes the sum over the iteration of the `itemCounts`
map in `CalculateAndStoreTotal` independent of the (unspecified) map
iteration order.  The Go standard-library calls `strings.TrimSpace` and
`strings.ToLower` are modelled character-wise on the underlying character
list.  Console output is not modelled; only the store state and the
reports the functions decide on are.
-/

/-- A record of the `menu` collection: item name and price. -/
structure MenuItem where
  name : String
  price : ℚ
deriving DecidableEq

/-- A record of the `customers` collection. -/
structure Customer where
  name : String
  phone : String
  orderedItems : List String
  totalAmount : ℚ
deriving DecidableEq

/-- The persistent store: both collections, in insertion order. -/
structure Store where
  menu : List MenuItem
  customers : List Customer
deriving DecidableEq

/-- `FindOne` on the menu collection with an equality filter on `name`. -/
def findMenuItem (menu : List MenuItem) (n : String) : Option MenuItem :=
  menu.find? (fun m => m.name == n)

/-- `FindOne` on the customers collection with an equality filter on `name`. -/
def findCustomer (customers : List Customer) (n : String) : Option Customer :=
  customers.find? (fun c => c.name == n)

/-- The report `OrderItem` prints: the item is not in the menu, the order
was accepted, or no customer matched the name. -/
inductive OrderReport where
  | itemNotFound : OrderReport
  | ordered : OrderReport
  | noCustomerFound : OrderReport
deriving DecidableEq

/-- `UpdateOne` with `$push` on `orderedItems`: appends the item name to
the first customer whose name matches, and reports whether a record
matched. -/
def pushOrderedItem : List Customer → String → String → List Customer × Bool
  | [], _, _ => ([], false)
  | c :: rest, customerName, itemName =>
    if c.name == customerName then
      ({ c with orderedItems := c.orderedItems ++ [itemName] } :: rest, true)
    else
      let p := pushOrderedItem rest customerName itemName
      (c :: p.1, p.2)

/-- `OrderItem` from `src/main.go`: looks the item up in the menu; if it is
absent, reports item-not-found and mutates nothing; otherwise pushes the
item name onto the first matching customer's `orderedItems`, reporting
whether a customer matched. -/
def OrderItem (s : Store) (customerName : String) (itemName : String) :
    Store × OrderReport :=
  match findMenuItem s.menu itemName with
  | none => (s, OrderReport.itemNotFound)
  | some _ =>
    let p := pushOrderedItem s.customers customerName itemName
    ({ s with customers := p.1 },
      if p.2 then OrderReport.ordered else OrderReport.noCustomerFound)

/-- The distinct names occurring in a list of item names: the key set of
the `itemCounts` map the source builds (each name kept once; which
occurrence is kept is irrelevant to the sum below). -/
def distinctNames : List String → List String
  | [] => []
  | n :: rest =>
    if rest.contains n then distinctNames rest else n :: distinctNames rest

/-- The total computed by `CalculateAndStoreTotal`: the ordered items are
grouped by distinct name with their occurrence counts (the `itemCounts`
map of the source), each distinct name is looked up in the menu, names
missing from the menu are skipped, and price times count is summed. -/
def computeTotal (menu : List MenuItem) (items : List String) : ℚ :=
  ((distinctNames items).map (fun n =>
    match findMenuItem menu n with
    | none => 0
    | some m => m.price * (items.count n : ℚ))).sum

/-- `UpdateOne` with `$set` on `totalAmount`: overwrites the field on the
first customer whose name matches. -/
def setTotalAmount : List Customer → String → ℚ → List Customer
  | [], _, _ => []
  | c :: rest, customerName, t =>
    if c.name == customerName then
      { c with totalAmount := t } :: rest
    else
      c :: setTotalAmount rest customerName t

/-- `CalculateAndStoreTotal` from `src/main.go`: fetches the customer by
name (returning the store unchanged when absent), computes the total of
the fetched record's ordered items, and overwrites that customer's
`totalAmount`. -/
def CalculateAndStoreTotal (s : Store) (customerName : String) : Store :=
  match findCustomer s.customers customerName with
  | none => s
  | some customer =>
    let t := computeTotal s.menu customer.orderedItems
    { s with customers := setTotalAmount s.customers customerName t }

/-- The fixed seeding list of `AddMenuItems`. -/
def menuSeedList : List MenuItem :=
  [ { name := "Pizza", price := 829.17 },
    { name := "Burger", price := 497.17 },
    { name := "Pasta", price := 663.17 },
    { name := "Salad", price := 414.17 },
    { name := "Sushi", price := 1078.17 },
    { name := "Sandwich", price := 331.17 },
    { name := "Tacos", price := 580.17 },
    { name := "Steak", price := 1327.17 },
    { name := "Fries", price := 248.17 },
    { name := "Ice Cream", price := 290.50 } ]

/-- `AddMenuItems` from `src/main.go`: inserts every record of the fixed
seeding list into the menu collection, unconditionally. -/
def AddMenuItems (s : Store) : Store :=
  { s with menu := s.menu ++ menuSeedList }

/-- `AddCustomer` from `src/main.go`: inserts a fresh customer with an
empty order list and a zero total. -/
def AddCustomer (s : Store) (name : String) (phone : String) : Store :=
  let c : Customer :=
    { name := name, phone := phone, orderedItems := [], totalAmount := 0 }
  { s with customers := s.customers ++ [c] }

/-- Model of Go `strings.TrimSpace`: removes leading and trailing
whitespace characters. -/
def trimSpace (s : String) : String :=
  String.mk
    (((s.data.dropWhile Char.isWhitespace).reverse.dropWhile
      Char.isWhitespace).reverse)

/-- Model of Go `strings.ToLower`: lowercases every character. -/
def lowerString (s : String) : String :=
  String.mk (s.data.map Char.toLower)

/-- The ordering loop of `PlaceOrder`: each input line is trimmed; a line
that lowercases to the sentinel stops the loop, any other trimmed line is
forwarded to `OrderItem`.  Returns `none` when the input runs out without
a sentinel (the source would keep blocking for further input). -/
def placeOrderLoop : Store → String → List String → Option Store
  | _, _, [] => none
  | s, customerName, line :: rest =>
    let t := trimSpace line
    if lowerString t == "done" then some s
    else placeOrderLoop (OrderItem s customerName t).1 customerName rest

/-- `PlaceOrder` from `src/main.go`: runs the ordering loop on the input
lines and then computes and stores the session customer's total. -/
def PlaceOrder (s : Store) (customerName : String) (lines : List String) :
    Option Store :=
  (placeOrderLoop s customerName lines).map
    (fun s2 => CalculateAndStoreTotal s2 customerName)

/-- Spec-side view of the loop input: the trimmed lines strictly before
the first sentinel line. -/
def linesBeforeDone (lines : List String) : List String :=
  (lines.map trimSpace).takeWhile (fun t => !(lowerString t == "done"))

/-- Spec-side view: whether the input contains a sentinel line. -/
def hasDoneLine (lines : List String) : Bool :=
  (lines.map trimSpace).any (fun t => lowerString t == "done")

/-! ### Helper lemmas -/

theorem pushOrderedItem_of_no_match (cs : List Customer)
    (customerName itemName : String)
    (h : ∀ c ∈ cs, c.name ≠ customerName) :
    pushOrderedItem cs customerName itemName = (cs, false) := by
  induction cs with
  | nil => rfl
  | cons c rest ih =>
    have hc : (c.name == customerName) = false := by
      simp only [beq_eq_false_iff_ne]
      exact h c (List.mem_cons_self c rest)
    simp [pushOrderedItem, hc,
      ih (fun x hx => h x (List.mem_cons_of_mem c hx))]

theorem findCustomer_setTotalAmount (cs : List Customer) (n : String) (t : ℚ)
    (c : Customer) (h : findCustomer cs n = some c) :
    findCustomer (setTotalAmount cs n t) n =
      some { c with totalAmount := t } := by
  induction cs with
  | nil => simp [findCustomer] at h
  | cons d rest ih =>
    cases hd : (d.name == n) with
    | true =>
      have hcd : d = c := by
        rw [findCustomer] at h
        simp [List.find?, hd] at h
        exact h
      subst hcd
      simp [setTotalAmount, hd, findCustomer, List.find?]
    | false =>
      rw [findCustomer] at h
      simp only [List.find?, hd] at h
      simp [setTotalAmount, hd, findCustomer, List.find?]
      exact ih h

theorem setTotalAmount_set_same (cs : List Customer) (n : String) (t : ℚ) :
    setTotalAmount (setTotalAmount cs n t) n t = setTotalAmount cs n t := by
  induction cs with
  | nil => rfl
  | cons d rest ih =>
    by_cases hd : (d.name == n) = true
    · simp [setTotalAmount, hd]
    · simp [setTotalAmount, hd, ih]

theorem calcTotal_found (s : Store) (n : String) (c : Customer)
    (h : findCustomer s.customers n = some c) :
    CalculateAndStoreTotal s n =
      { s with
        customers := setTotalAmount s.customers n
                       (computeTotal s.menu c.orderedItems) } := by
  simp [CalculateAndStoreTotal, h]

/-! ### Claims -/

/-- C3: for every store state and every item name that matches no menu
record, `OrderItem` leaves the whole store unchanged and reports that the
item was not found. -/
theorem orderItem_unknown_item (s : Store) (customerName itemName : String)
    (h : findMenuItem s.menu itemName = none) :
    OrderItem s customerName itemName = (s, OrderReport.itemNotFound) := by
  simp [OrderItem, h]

/-- Witness for C3: ordering the unseeded "Waffles" in a concrete store. -/
theorem orderItem_unknown_item_witness :
    OrderItem { menu := menuSeedList, customers := [] } "Ana" "Waffles" =
      ({ menu := menuSeedList, customers := [] },
        OrderReport.itemNotFound) :=
  orderItem_unknown_item _ _ _ rfl

/-- C10: `OrderItem` checks the menu before touching any customer record:
when the item is absent from the menu it reports item-not-found even when
the customer name also matches no customer record. -/
theorem orderItem_menu_check_first (s : Store) (customerName itemName : String)
    (hi : findMenuItem s.menu itemName = none)
    (_hc : ∀ c ∈ s.customers, c.name ≠ customerName) :
    (OrderItem s customerName itemName).2 = OrderReport.itemNotFound := by
  simp [OrderItem, hi]

/-- Witness for C10: unknown item and unknown customer at once. -/
theorem orderItem_menu_check_first_witness :
    (OrderItem
      { menu := menuSeedList,
        customers := [{ name := "Bob", phone := "1",
                        orderedItems := [], totalAmount := 0 }] }
      "Ana" "Waffles").2 = OrderReport.itemNotFound :=
  orderItem_menu_check_first _ _ _ rfl
    (by
      intro c h
      rw [List.mem_singleton] at h
      subst h
      decide)

/-- C4: when the item is on the menu but no customer record matches the
customer name, `OrderItem` leaves the whole store unchanged and reports
that no customer was found. -/
theorem orderItem_unknown_customer (s : Store) (customerName itemName : String)
    (m : MenuItem) (hm : findMenuItem s.menu itemName = some m)
    (hc : ∀ c ∈ s.customers, c.name ≠ customerName) :
    OrderItem s customerName itemName = (s, OrderReport.noCustomerFound) := by
  have hp := pushOrderedItem_of_no_match s.customers customerName itemName hc
  simp [OrderItem, hm, hp]

/-- Witness for C4: a known item ordered for an unregistered customer. -/
theorem orderItem_unknown_customer_witness :
    OrderItem
      { menu := menuSeedList,
        customers := [{ name := "Bob", phone := "1",
                        orderedItems := [], totalAmount := 0 }] }
      "Ana" "Pizza" =
      ({ menu := menuSeedList,
         customers := [{ name := "Bob", phone := "1",
                         orderedItems := [], totalAmount := 0 }] },
        OrderReport.noCustomerFound) :=
  orderItem_unknown_customer _ _ _ { name := "Pizza", price := 829.17 } rfl
    (by
      intro c h
      rw [List.mem_singleton] at h
      subst h
      decide)

/-- C9: `AddMenuItems` inserts its fixed seeding list unconditionally, so
running it twice from any starting store leaves two copies of each seeded
entry in the menu. -/
theorem addMenuItems_twice_duplicates (s : Store) (m : MenuItem)
    (h : m ∈ menuSeedList) :
    (AddMenuItems (AddMenuItems s)).menu.count m = s.menu.count m + 2 := by
  have h1 : menuSeedList.count m = 1 := by
    fin_cases h <;> simp [menuSeedList, List.count_cons]
  simp [AddMenuItems, List.count_append, h1]

/-- Witness for C9: seeding twice from the empty store duplicates Pizza. -/
theorem addMenuItems_twice_duplicates_witness :
    (AddMenuItems (AddMenuItems { menu := [], customers := [] })).menu.count
      { name := "Pizza", price := 829.17 } =
      ([] : List MenuItem).count { name := "Pizza", price := 829.17 } + 2 :=
  addMenuItems_twice_duplicates { menu := [], customers := [] } _
    (by simp [menuSeedList])

/-- A concrete customer record with three orders, used by witnesses. -/
def anaThreeOrders : Customer :=
  { name := "Ana", phone := "7",
    orderedItems := ["Pizza", "Pizza", "Burger"], totalAmount := 0 }

/-- A concrete customer record with no orders and a stale nonzero total,
used by witnesses. -/
def anaNoOrders : Customer :=
  { name := "Ana", phone := "7", orderedItems := [], totalAmount := 5 }

/-- C1: for a customer record found in the store, `CalculateAndStoreTotal`
overwrites its `totalAmount` with the sum, over the distinct item names of
its ordered items, of the menu price of the name times its number of
occurrences, a name missing from the menu contributing zero. -/
theorem calcTotal_stores_grouped_sum (s : Store) (c : Customer)
    (h : findCustomer s.customers c.name = some c) :
    findCustomer (CalculateAndStoreTotal s c.name).customers c.name =
      some { c with
             totalAmount :=
               ((distinctNames c.orderedItems).map (fun n =>
                 match findMenuItem s.menu n with
                 | none => 0
                 | some m =>
                   m.price * (c.orderedItems.count n : ℚ))).sum } := by
  rw [calcTotal_found s c.name c h]
  exact findCustomer_setTotalAmount s.customers c.name _ c h

/-- Witness for C1: the grouped sum is stored for a concrete customer. -/
theorem calcTotal_stores_grouped_sum_witness :
    findCustomer (CalculateAndStoreTotal
        { menu := menuSeedList, customers := [anaThreeOrders] }
        "Ana").customers "Ana" =
      some { anaThreeOrders with
             totalAmount :=
               ((distinctNames anaThreeOrders.orderedItems).map (fun n =>
                 match findMenuItem menuSeedList n with
                 | none => 0
                 | some m =>
                   m.price *
                     (anaThreeOrders.orderedItems.count n : ℚ))).sum } :=
  calcTotal_stores_grouped_sum
    { menu := menuSeedList, customers := [anaThreeOrders] }
    anaThreeOrders rfl

/-- C5: for a customer record found in the store whose order list is
empty, `CalculateAndStoreTotal` stores a total of exactly zero. -/
theorem calcTotal_empty_orders_zero (s : Store) (c : Customer)
    (h : findCustomer s.customers c.name = some c)
    (he : c.orderedItems = []) :
    findCustomer (CalculateAndStoreTotal s c.name).customers c.name =
      some { c with totalAmount := 0 } := by
  rw [calcTotal_found s c.name c h]
  have h0 : computeTotal s.menu c.orderedItems = 0 := by
    rw [he]
    rfl
  rw [h0]
  exact findCustomer_setTotalAmount s.customers c.name 0 c h

/-- Witness for C5: a stale nonzero total is reset to zero. -/
theorem calcTotal_empty_orders_zero_witness :
    findCustomer (CalculateAndStoreTotal
        { menu := menuSeedList, customers := [anaNoOrders] }
        "Ana").customers "Ana" =
      some { anaNoOrders with totalAmount := 0 } :=
  calcTotal_empty_orders_zero
    { menu := menuSeedList, customers := [anaNoOrders] }
    anaNoOrders rfl rfl

/-- C2: `CalculateAndStoreTotal` is idempotent: with no intervening change
to the store, running it a second time for the same customer name leaves
the store reached after the first run unchanged. -/
theorem calcTotal_idempotent (s : Store) (customerName : String) :
    CalculateAndStoreTotal (CalculateAndStoreTotal s customerName)
        customerName =
      CalculateAndStoreTotal s customerName := by
  cases h : findCustomer s.customers customerName with
  | none => simp [CalculateAndStoreTotal, h]
  | some c =>
    have h2 := findCustomer_setTotalAmount s.customers customerName
      (computeTotal s.menu c.orderedItems) c h
    simp [CalculateAndStoreTotal, h, h2, setTotalAmount_set_same]

theorem pushOrderedItem_split (pre post : List Customer) (c : Customer)
    (customerName itemName : String)
    (hpre : ∀ x ∈ pre, x.name ≠ customerName) (hc : c.name = customerName) :
    pushOrderedItem (pre ++ c :: post) customerName itemName =
      (pre ++
        { c with orderedItems := c.orderedItems ++ [itemName] } :: post,
        true) := by
  induction pre with
  | nil => simp [pushOrderedItem, hc]
  | cons d rest ih =>
    have hd : (d.name == customerName) = false := by
      simp only [beq_eq_false_iff_ne]
      exact hpre d (List.mem_cons_self d rest)
    simp [pushOrderedItem, hd,
      ih (fun x hx => hpre x (List.mem_cons_of_mem d hx))]

/-- C7: when the item is on the menu and a customer record matches the
name, `OrderItem` appends exactly one element, the item name, at the end
of the matched customer's `orderedItems`; that customer's other fields,
every other customer record, and the whole menu are unchanged, and the
accepted order is reported. -/
theorem orderItem_appends_exactly_one (s : Store)
    (customerName itemName : String) (m : MenuItem)
    (pre post : List Customer) (c : Customer)
    (hm : findMenuItem s.menu itemName = some m)
    (hs : s.customers = pre ++ c :: post)
    (hpre : ∀ x ∈ pre, x.name ≠ customerName)
    (hc : c.name = customerName) :
    OrderItem s customerName itemName =
      ({ menu := s.menu,
         customers := pre ++
           { c with orderedItems := c.orderedItems ++ [itemName] } :: post },
        OrderReport.ordered) := by
  have hp := pushOrderedItem_split pre post c customerName itemName hpre hc
  simp [OrderItem, hm, hs, hp]

/-- A concrete non-matching customer record, used by witnesses. -/
def bobNoOrders : Customer :=
  { name := "Bob", phone := "1", orderedItems := [], totalAmount := 0 }

/-- Witness for C7: ordering Burger for the second of two customers. -/
theorem orderItem_appends_exactly_one_witness :
    OrderItem
      { menu := menuSeedList, customers := [bobNoOrders, anaThreeOrders] }
      "Ana" "Burger" =
      ({ menu := menuSeedList,
         customers := [bobNoOrders,
           { anaThreeOrders with
             orderedItems := anaThreeOrders.orderedItems ++ ["Burger"] }] },
        OrderReport.ordered) :=
  orderItem_appends_exactly_one
    { menu := menuSeedList, customers := [bobNoOrders, anaThreeOrders] }
    "Ana" "Burger" { name := "Burger", price := 497.17 }
    [bobNoOrders] [] anaThreeOrders rfl rfl
    (by
      intro x hx
      rw [List.mem_singleton] at hx
      subst hx
      decide)
    rfl

theorem placeOrderLoop_spec (customerName : String) (lines : List String) :
    ∀ s : Store, placeOrderLoop s customerName lines =
      if hasDoneLine lines then
        some ((linesBeforeDone lines).foldl
          (fun st t => (OrderItem st customerName t).1) s)
      else none := by
  induction lines with
  | nil =>
    intro s
    rfl
  | cons line rest ih =>
    intro s
    cases hd : (lowerString (trimSpace line) == "done") with
    | true => simp [placeOrderLoop, hasDoneLine, linesBeforeDone, hd]
    | false => simp [placeOrderLoop, hasDoneLine, linesBeforeDone, hd, ih]

/-- C6: the ordering loop trims each input line; a trimmed line that
case-insensitively equals the sentinel stops the loop and triggers the
total computation for the session customer, and every earlier trimmed
line is forwarded to `OrderItem` in order; without a sentinel the loop
never finishes. -/
theorem placeOrder_trims_and_folds (s : Store) (customerName : String)
    (lines : List String) :
    PlaceOrder s customerName lines =
      if hasDoneLine lines then
        some (CalculateAndStoreTotal
          ((linesBeforeDone lines).foldl
            (fun st t => (OrderItem st customerName t).1) s)
          customerName)
      else none := by
  rw [PlaceOrder, placeOrderLoop_spec customerName lines s]
  cases hd : hasDoneLine lines with
  | true => simp
  | false => simp

/-- C8: starting from the empty store, seeding the menu, registering one
customer "Ana" and running a session ordering Pizza, Pizza and Burger
before the sentinel leaves orderedItems at exactly those three names and
a stored total of 829.17 + 829.17 + 497.17 = 2155.51. -/
theorem placeOrder_end_to_end :
    PlaceOrder
      (AddCustomer (AddMenuItems { menu := [], customers := [] })
        "Ana" "12345")
      "Ana" ["Pizza", "Pizza", "Burger", "done"] =
      some { menu := menuSeedList,
             customers := [{ name := "Ana", phone := "12345",
                             orderedItems := ["Pizza", "Pizza", "Burger"],
                             totalAmount := 2155.51 }] } := by
  have h1 : placeOrderLoop
      (AddCustomer (AddMenuItems { menu := [], customers := [] })
        "Ana" "12345")
      "Ana" ["Pizza", "Pizza", "Burger", "done"] =
      some { menu := menuSeedList,
             customers := [{ name := "Ana", phone := "12345",
                             orderedItems := ["Pizza", "Pizza", "Burger"],
                             totalAmount := 0 }] } := rfl
  have h2 : computeTotal menuSeedList ["Pizza", "Pizza", "Burger"] =
      2155.51 := by
    with_unfolding_all rfl
  rw [PlaceOrder, h1]
  simp only [Option.map_some']
  rw [calcTotal_found
    { menu := menuSeedList,
      customers := [{ name := "Ana", phone := "12345",
                      orderedItems := ["Pizza", "Pizza", "Burger"],
                      totalAmount := 0 }] }
    "Ana"
    { name := "Ana", phone := "12345",
      orderedItems := ["Pizza", "Pizza", "Burger"], totalAmount := 0 } rfl]
  rw [h2]
  rfl
